import Mathlib

/-!
Shallow embedding of the bulk backup/restore/compare orchestrator of the
dynatrace-backup-restore-tool repository, together with its immediate
collaborators (configuration catalog, Monaco CLI wrapper, Dynatrace API
preflight, artifact checksum), and proofs of the specified properties.

Source files embedded:
  backend/app/services/bulk_operation_service.py
  backend/app/services/monaco_service.py
  backend/app/services/dynatrace_service.py
  backend/app/services/backup_service.py
  backend/app/core/config_catalog.py

The external world (database rows, remote HTTP endpoints, the Monaco
subprocess, the filesystem) is modelled by explicit oracle parameters: a
function from an environment id to the observable outcome of the per-target
interactions the Python code performs with that environment.  Everything
that the Python code itself computes (branching, counters, result maps,
status fields, strings) is translated directly.
-/

namespace DTBR

/-- Mirrors `BackupStatus` of backend/app/models/models.py.  The Python value
`PARTIAL` is rendered `partial_` here (the bare word is a Lean keyword). -/
inductive BackupStatus
  | pending
  | in_progress
  | success
  | failed
  | partial_
  deriving DecidableEq, Repr

/-- One value of the per-target `results` dict built by the bulk loops in
backend/app/services/bulk_operation_service.py: either a success payload
(whose shape depends on the operation kind) or `{"status": "failed",
"reason": reason}`. -/
inductive TargetOutcome
  | backupSuccess (backup_id : Nat) (size : Nat) (files : Nat)
  | restoreSuccess
  | compareSuccess (identical : Nat) (different : Nat) (only_in_source : Nat) (only_in_target : Nat)
  | failure (reason : String)
  deriving DecidableEq, Repr

/-- The mutable columns of one `BulkOperation` row touched by the service
(backend/app/models/models.py, class BulkOperation).  Timestamps are
abstracted to "has been stamped" booleans, since only their presence matters
to the specification. -/
structure OperationRecord where
  status : BackupStatus
  successful_count : Nat
  failed_count : Nat
  partial_count : Nat
  error_message : Option String
  started_at_set : Bool
  completed_at_set : Bool
  results_summary : List (String × TargetOutcome)
  deriving DecidableEq, Repr

/-- A freshly created `BulkOperation` row (all counters at their column
defaults, nothing stamped). -/
def initialRecord : OperationRecord :=
  { status := .pending
    successful_count := 0
    failed_count := 0
    partial_count := 0
    error_message := none
    started_at_set := false
    completed_at_set := false
    results_summary := [] }

/-- The running state of one bulk loop: the `results` dict (modelled as an
insertion-ordered association list) and the `successful` / `failed`
counters. -/
structure LoopAcc where
  results : List (String × TargetOutcome)
  successful : Nat
  failed : Nat
  deriving DecidableEq, Repr

/-- The observable outcome of everything `bulk_backup` does with one target
environment id (lines 54-128 of bulk_operation_service.py): the database
lookup, `test_connection`, `preflight_config_access`, `export_configs` and
the backup-row insertion, collapsed into the branch the code takes. -/
inductive BackupEnvWorld
  | missing
  | unhealthy (health_msg : String)
  | preflightDenied (errors : List String)
  | exportFailed (message : String)
  | exportOk (backup_id : Nat) (size : Nat) (files : Nat)
  | raises (e : String)
  deriving DecidableEq, Repr

/-- One iteration of the per-environment loop of
`BulkOperationService.bulk_backup` (lines 54-128): each branch records one
entry in `results` and increments exactly one of the two counters; the
`except Exception` arm (lines 125-128) converts a raising target into a
`Failure{str(e)}` entry. -/
def backupStep (w : Nat → BackupEnvWorld) (acc : LoopAcc) (env_id : Nat) : LoopAcc :=
  let key := toString env_id
  match w env_id with
  | .missing =>
      { acc with results := acc.results ++ [(key, .failure "Environment not found")]
                 failed := acc.failed + 1 }
  | .unhealthy health_msg =>
      { acc with results := acc.results ++ [(key, .failure health_msg)]
                 failed := acc.failed + 1 }
  | .preflightDenied errors =>
      { acc with results := acc.results ++ [(key, .failure ("Preflight failed: " ++ String.intercalate "; " errors))]
                 failed := acc.failed + 1 }
  | .exportFailed message =>
      { acc with results := acc.results ++ [(key, .failure message)]
                 failed := acc.failed + 1 }
  | .exportOk backup_id size files =>
      { acc with results := acc.results ++ [(key, .backupSuccess backup_id size files)]
                 successful := acc.successful + 1 }
  | .raises e =>
      { acc with results := acc.results ++ [(key, .failure e)]
                 failed := acc.failed + 1 }

/-- The per-target outcome `bulk_backup` records for one environment id. -/
def backupTargetOutcome (w : Nat → BackupEnvWorld) (env_id : Nat) : TargetOutcome :=
  match w env_id with
  | .missing => .failure "Environment not found"
  | .unhealthy health_msg => .failure health_msg
  | .preflightDenied errors => .failure ("Preflight failed: " ++ String.intercalate "; " errors)
  | .exportFailed message => .failure message
  | .exportOk backup_id size files => .backupSuccess backup_id size files
  | .raises e => .failure e

/-- Whether the branch taken for this environment counts as successful. -/
def backupTargetOk (w : Nat → BackupEnvWorld) (env_id : Nat) : Bool :=
  match w env_id with
  | .exportOk _ _ _ => true
  | _ => false

/-- `BulkOperationService.bulk_backup` along the path where the operation row
exists and no exception escapes the per-target loop (lines 33-139): mark the
row `IN_PROGRESS`, stamp `started_at`, run the loop, then store the counters,
set the terminal status (`SUCCESS` iff `failed == 0`, else `PARTIAL`), zero
`partial_count`, stamp `completed_at` and persist the results dict. -/
def bulk_backup (w : Nat → BackupEnvWorld) (environment_ids : List Nat) : OperationRecord :=
  let rec0 := { initialRecord with status := .in_progress, started_at_set := true }
  let acc := environment_ids.foldl (backupStep w) ⟨[], 0, 0⟩
  { rec0 with
    status := if acc.failed = 0 then .success else .partial_
    successful_count := acc.successful
    failed_count := acc.failed
    partial_count := 0
    completed_at_set := true
    results_summary := acc.results }

/-- The `except Exception` handler wrapping the whole of `bulk_backup`
(lines 141-150): re-load the row and, when present, mark it `FAILED`, stamp
`error_message` and `completed_at`. -/
def bulkBackupFault (rec : OperationRecord) (e : String) : OperationRecord :=
  { rec with status := .failed, error_message := some e, completed_at_set := true }

/-- `bulk_backup` including its outermost try/except: `record_found = false`
models the early `return` when the `BulkOperation` row is absent (the row is
then never written, result `none`); `outer_exc = some e` models an exception
escaping the per-target loop after the row was marked `IN_PROGRESS`. -/
def bulk_backup_full (record_found : Bool) (outer_exc : Option String)
    (w : Nat → BackupEnvWorld) (environment_ids : List Nat) : Option OperationRecord :=
  if record_found then
    match outer_exc with
    | some e => some (bulkBackupFault { initialRecord with status := .in_progress, started_at_set := true } e)
    | none => some (bulk_backup w environment_ids)
  else none

/-- The observable outcome of everything `bulk_compare` does with one target
environment id (lines 298-347 of bulk_operation_service.py). -/
inductive CompareEnvWorld
  | missing
  | compareOk (identical : Nat) (different : Nat) (only_in_source : Nat) (only_in_target : Nat)
  | raises (e : String)
  deriving DecidableEq, Repr

/-- One iteration of the per-target loop of
`BulkOperationService.bulk_compare` (lines 298-347).  Note the asymmetry
with `bulk_backup`: a missing target environment increments `failed` but
records no `results` entry (lines 304-306). -/
def compareStep (w : Nat → CompareEnvWorld) (acc : LoopAcc) (env_id : Nat) : LoopAcc :=
  let key := toString env_id
  match w env_id with
  | .missing =>
      { acc with failed := acc.failed + 1 }
  | .compareOk identical different only_in_source only_in_target =>
      { acc with results := acc.results ++ [(key, .compareSuccess identical different only_in_source only_in_target)]
                 successful := acc.successful + 1 }
  | .raises e =>
      { acc with results := acc.results ++ [(key, .failure e)]
                 failed := acc.failed + 1 }

/-- The `results` entry (if any) `bulk_compare` records for one target. -/
def compareEntry (w : Nat → CompareEnvWorld) (env_id : Nat) : Option (String × TargetOutcome) :=
  match w env_id with
  | .missing => none
  | .compareOk identical different only_in_source only_in_target =>
      some (toString env_id, .compareSuccess identical different only_in_source only_in_target)
  | .raises e => some (toString env_id, .failure e)

/-- `BulkOperationService.bulk_compare` along the path where the operation
row and the source environment exist and no exception escapes the loop
(lines 267-355).  The row was created already `IN_PROGRESS` by the API layer
(environments.py line 361); the service never stamps `started_at` for
compare.  Terminal update: lines 350-355 (it does stamp `completed_at`). -/
def bulk_compare (w : Nat → CompareEnvWorld) (target_env_ids : List Nat) : OperationRecord :=
  let rec0 := { initialRecord with status := .in_progress }
  let acc := target_env_ids.foldl (compareStep w) ⟨[], 0, 0⟩
  { rec0 with
    status := if acc.failed = 0 then .success else .partial_
    successful_count := acc.successful
    failed_count := acc.failed
    completed_at_set := true
    results_summary := acc.results }

/-- The `except Exception` handler wrapping the whole of `bulk_compare`
(lines 357-365): mark `FAILED` and stamp `error_message` — `completed_at`
is NOT stamped there. -/
def bulkCompareFault (rec : OperationRecord) (e : String) : OperationRecord :=
  { rec with status := .failed, error_message := some e }

/-- `bulk_compare` including its outermost try/except and the
source-environment lookup (lines 267-282): a missing source environment
marks the row `FAILED` with a fixed message (and stamps nothing else). -/
def bulk_compare_full (record_found : Bool) (source_found : Bool) (outer_exc : Option String)
    (w : Nat → CompareEnvWorld) (target_env_ids : List Nat) : Option OperationRecord :=
  if record_found then
    match outer_exc with
    | some e => some (bulkCompareFault { initialRecord with status := .in_progress } e)
    | none =>
        if source_found then some (bulk_compare w target_env_ids)
        else some { initialRecord with status := .failed, error_message := some "Source environment not found" }
  else none

/-- The observable outcome of one `(backup, target)` pair inside
`bulk_restore` (lines 187-235 of bulk_operation_service.py), once both rows
were found: the Monaco `restore_configs` call and the `RestoreHistory`
insertion, collapsed into the branch the code takes. -/
inductive RestorePairResult
  | ok
  | fail (message : String)
  | raises (e : String)
  deriving DecidableEq, Repr

/-- The database and Monaco oracle for one `bulk_restore` run. -/
structure RestoreWorld where
  backupExists : Nat → Bool
  envExists : Nat → Bool
  pairResult : Nat → Nat → RestorePairResult

/-- One iteration of the inner (per-target) loop of
`BulkOperationService.bulk_restore` (lines 187-235).  Asymmetries with
`bulk_backup`: a missing target environment is skipped entirely (line 193-195
`continue`: no `results` entry, no counter), and the `except Exception` arm
(lines 233-235) increments `failed` without recording a `results` entry. -/
def restorePairStep (w : RestoreWorld) (backup_id : Nat) (acc : LoopAcc) (target_env_id : Nat) : LoopAcc :=
  if w.envExists target_env_id then
    let key := "backup_" ++ toString backup_id ++ "_env_" ++ toString target_env_id
    match w.pairResult backup_id target_env_id with
    | .ok =>
        { acc with results := acc.results ++ [(key, .restoreSuccess)]
                   successful := acc.successful + 1 }
    | .fail message =>
        { acc with results := acc.results ++ [(key, .failure message)]
                   failed := acc.failed + 1 }
    | .raises _ =>
        { acc with failed := acc.failed + 1 }
  else acc

/-- One iteration of the outer (per-backup) loop of `bulk_restore`
(lines 178-235): a missing backup row skips all its pairs (lines 183-185). -/
def restoreBackupStep (w : RestoreWorld) (target_environment_ids : List Nat)
    (acc : LoopAcc) (backup_id : Nat) : LoopAcc :=
  if w.backupExists backup_id then
    target_environment_ids.foldl (restorePairStep w backup_id) acc
  else acc

/-- `BulkOperationService.bulk_restore` along the path where the operation
row exists and no exception escapes the loops (lines 161-245). -/
def bulk_restore (w : RestoreWorld) (backup_ids : List Nat)
    (target_environment_ids : List Nat) : OperationRecord :=
  let rec0 := { initialRecord with status := .in_progress, started_at_set := true }
  let acc := backup_ids.foldl (restoreBackupStep w target_environment_ids) ⟨[], 0, 0⟩
  { rec0 with
    status := if acc.failed = 0 then .success else .partial_
    successful_count := acc.successful
    failed_count := acc.failed
    completed_at_set := true
    results_summary := acc.results }

/-- The `except Exception` handler wrapping the whole of `bulk_restore`
(lines 247-256): mark `FAILED`, stamp `error_message` and `completed_at`. -/
def bulkRestoreFault (rec : OperationRecord) (e : String) : OperationRecord :=
  { rec with status := .failed, error_message := some e, completed_at_set := true }

/-- `bulk_restore` including its outermost try/except. -/
def bulk_restore_full (record_found : Bool) (outer_exc : Option String)
    (w : RestoreWorld) (backup_ids : List Nat) (target_environment_ids : List Nat) :
    Option OperationRecord :=
  if record_found then
    match outer_exc with
    | some e => some (bulkRestoreFault { initialRecord with status := .in_progress, started_at_set := true } e)
    | none => some (bulk_restore w backup_ids target_environment_ids)
  else none

/-- Mirrors `ConfigTypeDefinition` of backend/app/core/config_catalog.py. -/
structure ConfigTypeDefinition where
  key : String
  label : String
  monaco_apis : List String
  deriving DecidableEq, Repr

/-- `CONFIG_TYPES` of backend/app/core/config_catalog.py (lines 15-112), as
an insertion-ordered association list (Python dict iteration order). -/
def CONFIG_TYPES : List (String × ConfigTypeDefinition) :=
  [ ("alerting", ⟨"alerting", "Alerting Profiles", ["alerting-profile"]⟩)
  , ("dashboards", ⟨"dashboards", "Dashboards", ["dashboard"]⟩)
  , ("slo", ⟨"slo", "SLO", ["slo"]⟩)
  , ("rules", ⟨"rules", "Rules",
      [ "request-naming-service", "service-resource-naming", "conditional-naming-service"
      , "conditional-naming-processgroup", "conditional-naming-host"]⟩)
  , ("maintenance", ⟨"maintenance", "Maintenance Windows", ["maintenance-window"]⟩)
  , ("notification", ⟨"notification", "Notification Channels", ["notification"]⟩)
  , ("management_zone", ⟨"management_zone", "Management Zones", ["management-zone"]⟩)
  , ("anomaly_detection", ⟨"anomaly_detection", "Anomaly Detection",
      [ "anomaly-detection-metrics", "anomaly-detection-applications", "anomaly-detection-services"
      , "anomaly-detection-hosts", "anomaly-detection-vmware", "anomaly-detection-aws"
      , "anomaly-detection-database-services", "anomaly-detection-disks", "frequent-issue-detection"]⟩)
  , ("auto_tags", ⟨"auto_tags", "Auto Tags", ["auto-tag"]⟩)
  , ("application_detection", ⟨"application_detection", "Application Detection Rules",
      ["app-detection-rule", "app-detection-rule-host"]⟩)
  , ("service_detection", ⟨"service_detection", "Service Detection Rules",
      [ "service-detection-full-web-request", "service-detection-full-web-service"
      , "service-detection-opaque-web-request", "service-detection-opaque-web-service"]⟩)
  , ("request_attributes", ⟨"request_attributes", "Request Attributes", ["request-attributes"]⟩)
  , ("metric_events", ⟨"metric_events", "Metric Events", ["anomaly-detection-metrics"]⟩)
  , ("synthetic_monitors", ⟨"synthetic_monitors", "Synthetic Monitors",
      ["synthetic-monitor", "synthetic-location"]⟩)
  , ("extensions", ⟨"extensions", "Extensions", ["extension"]⟩) ]

/-- `CONFIG_PRESETS` of backend/app/core/config_catalog.py (lines 114-131). -/
def CONFIG_PRESETS : List (String × List String) :=
  [ ("core", ["alerting", "dashboards", "slo", "maintenance", "notification", "management_zone"])
  , ("ops", ["alerting", "dashboards", "slo", "anomaly_detection", "metric_events"])
  , ("full", ["all"]) ]

/-- Python truthiness of an optional string argument (`if config_preset:`):
absent (`None`) and the empty string are both falsy. -/
def pyTruthyStr (s : Option String) : Bool :=
  match s with
  | none => false
  | some v => v ≠ ""

/-- Python truthiness of an optional list argument (`if config_types:`):
absent (`None`) and the empty list are both falsy. -/
def pyTruthyList (l : Option (List String)) : Bool :=
  match l with
  | none => false
  | some v => v ≠ []

/-- `resolve_config_types` of backend/app/core/config_catalog.py
(lines 145-162).  The `ValueError` raised for an unknown (or empty) preset is
rendered as `Except.error` carrying the Python exception message.  Note that
`if not preset:` also raises when the preset is registered but empty; no
registered preset is empty. -/
def resolve_config_types (config_types : Option (List String)) (config_type : Option String)
    (config_preset : Option String) : Except String (List String) :=
  if pyTruthyStr config_preset then
    let name := config_preset.getD ""
    match List.lookup name CONFIG_PRESETS with
    | some preset => if preset = [] then .error ("Unknown config preset: " ++ name) else .ok preset
    | none => .error ("Unknown config preset: " ++ name)
  else if pyTruthyList config_types then .ok (config_types.getD [])
  else if pyTruthyStr config_type then .ok [config_type.getD ""]
  else .ok []

/-- Python's `sorted(set(xs))` on a list of strings: the ascending list of
the distinct elements. -/
def py_sorted_set (xs : List String) : List String :=
  (xs.dedup).mergeSort

/-- The `apis` accumulation loop of `build_monaco_api_filters`
(config_catalog.py lines 169-174): look every selected type up in
`CONFIG_TYPES`, return `None` (here `none`) as soon as one is unknown,
otherwise concatenate the `monaco_apis` lists in order. -/
def collect_monaco_apis : List String → Option (List String)
  | [] => some []
  | ct :: rest =>
      match List.lookup ct CONFIG_TYPES with
      | none => none
      | some defn =>
          match collect_monaco_apis rest with
          | none => none
          | some apis => some (defn.monaco_apis ++ apis)

/-- `build_monaco_api_filters` of backend/app/core/config_catalog.py
(lines 165-176): the empty selection and any selection containing the
`"all"` sentinel both map to the empty "no filter" marker; an unknown type
yields `None`; otherwise the result is `sorted(set(apis))`. -/
def build_monaco_api_filters (config_types : List String) : Option (List String) :=
  if config_types = [] ∨ "all" ∈ config_types then some []
  else
    match collect_monaco_apis config_types with
    | none => none
    | some apis => some (py_sorted_set apis)

/-- The normalization `export_configs` applies to its `config_types`
argument (monaco_service.py lines 69-72): resolve (with no single type and
no preset), drop falsy entries, and fall back to `["all"]` when nothing is
left. -/
def normalize_export_types (config_types : List String) : List String :=
  let resolved_types :=
    match resolve_config_types (some config_types) none none with
    | .ok l => l
    | .error _ => []
  let filtered := resolved_types.filter (fun ct => ct ≠ "")
  if filtered = [] then ["all"] else filtered

/-- Python's `a or b` on strings (`result.stderr or result.stdout`). -/
def pyOrStr (a b : String) : String :=
  if a ≠ "" then a else b

/-- The observable outcome of the Monaco subprocess invocation inside
`export_configs` (monaco_service.py lines 107-113): it completes with an
exit code and captured streams, hits the `subprocess.TimeoutExpired` bound,
or raises some other exception. -/
inductive MonacoRunWorld
  | completes (returncode : Nat) (stdout : String) (stderr : String)
  | timesOut
  | raises (e : String)
  deriving DecidableEq, Repr

/-- The value `MonacoCliService.export_configs` returns, together with the
two facts about its side effects the specification talks about: whether the
freshly created backup directory is still present on return, and which
`--api` filter list (if any) was passed to the Monaco command line. -/
structure ExportResult where
  ok : Bool
  message : String
  backup_path_returned : Bool
  dir_remains : Bool
  cmd_api_filters : Option (List String)
  deriving DecidableEq, Repr

/-- `MonacoCliService.export_configs` (monaco_service.py lines 45-132).
The backup directory is created (mkdir) before the subprocess runs; on exit
code 0 it is kept and its path returned; on non-zero exit, timeout or any
other exception it is deleted (`shutil.rmtree`) and `(False, message, None)`
is returned.  The `--api` flag is added only when `build_monaco_api_filters`
returns a non-empty list (lines 94-98). -/
def export_configs (w : MonacoRunWorld) (config_types : List String)
    (timeout : Nat) : ExportResult :=
  let normalized_types := normalize_export_types config_types
  let monaco_apis := build_monaco_api_filters normalized_types
  let cmd_api_filters :=
    match monaco_apis with
    | none => none
    | some [] => none
    | some apis => some apis
  match w with
  | .completes returncode stdout stderr =>
      if returncode = 0 then
        { ok := true, message := "Export successful", backup_path_returned := true
          dir_remains := true, cmd_api_filters := cmd_api_filters }
      else
        { ok := false, message := "Export failed: " ++ pyOrStr stderr stdout
          backup_path_returned := false, dir_remains := false, cmd_api_filters := cmd_api_filters }
  | .timesOut =>
      { ok := false, message := "Operation timeout after " ++ toString timeout ++ "s"
        backup_path_returned := false, dir_remains := false, cmd_api_filters := cmd_api_filters }
  | .raises e =>
      { ok := false, message := "Export error: " ++ e
        backup_path_returned := false, dir_remains := false, cmd_api_filters := cmd_api_filters }

/-- One environment section of the Monaco deploy manifest written by
`restore_configs` (monaco_service.py lines 175-188). -/
structure ManifestEnvironment where
  name : String
  url_type : String
  url_value : String
  auth_token_type : String
  auth_token_name : String
  deriving DecidableEq, Repr

/-- The structured manifest document `restore_configs` writes next to the
artifact (monaco_service.py lines 170-189). -/
structure RestoreManifest where
  manifestVersion : String
  project_name : String
  project_path : String
  group_name : String
  environments : List ManifestEnvironment
  deriving DecidableEq, Repr

/-- The manifest construction inside `MonacoCliService.restore_configs`
(monaco_service.py lines 161-189).  `project_dir_exists` is whether
`backup_path / "project"` exists; `uuid_hex` is the fresh `uuid4().hex` used
to name the ephemeral token environment variable.  The `api_token` argument
of `restore_configs` is accepted here to state that the manifest does not
depend on it: the token only ever reaches the subprocess environment
(line 215), never the manifest body. -/
def build_restore_manifest (project_dir_exists : Bool) (environment_url : String)
    (api_token : String) (uuid_hex : String) : RestoreManifest :=
  let token_env_var := "DTBM_TOKEN_" ++ uuid_hex
  let project_name := if project_dir_exists then "project" else "backup"
  let project_rel_path := if project_dir_exists then "project" else "."
  { manifestVersion := "1.0"
    project_name := project_name
    project_path := project_rel_path
    group_name := "default"
    environments :=
      [ { name := "target", url_type := "value", url_value := environment_url
          auth_token_type := "environment", auth_token_name := token_env_var } ] }

/-- The flat text written to `manifest.yaml`, as a function of the
structured document: a YAML dump is injective in the field values, so every
string occurring in the file on disk is a field of this rendering. -/
def manifest_text (m : RestoreManifest) : String :=
  m.manifestVersion ++ "|" ++ m.project_name ++ "|" ++ m.project_path ++ "|" ++ m.group_name ++ "|"
    ++ String.intercalate "|"
      (m.environments.map (fun e =>
        e.name ++ "|" ++ e.url_type ++ "|" ++ e.url_value ++ "|"
          ++ e.auth_token_type ++ "|" ++ e.auth_token_name))

/-- The keys of the `checks` dict of
`DynatraceAPIService.preflight_config_access` (dynatrace_service.py
lines 188-194), in dict insertion order. -/
def preflight_checks_order : List String :=
  ["alerting", "dashboards", "slo", "management_zone", "notification"]

/-- `DynatraceAPIService.preflight_config_access` (dynatrace_service.py
lines 183-204).  `check` is the remote oracle: for each probeable category,
the `(success, message)` outcome its read call would produce.  The first
component of the result is the `(ok, errors)` pair the Python function
returns; the second component is the list of categories actually probed
(remote calls made), recorded so that the short-circuit can be stated.
One iteration of the `for config_type, check in checks.items():` loop
(lines 197-202): skip categories that were not requested; otherwise perform
the read call, appending a category-scoped error message on failure.  The
accumulator carries the `errors` list and the list of categories probed so
far. -/
def preflightStep (config_types : List String) (check : String → Bool × String)
    (acc : List String × List String) (c : String) : List String × List String :=
  if c ∈ config_types then
    match check c with
    | (true, _) => (acc.1, acc.2 ++ [c])
    | (false, message) => (acc.1 ++ [c ++ ": " ++ message], acc.2 ++ [c])
  else acc

/-- `DynatraceAPIService.preflight_config_access` (dynatrace_service.py
lines 183-204), assembled from `preflightStep`: short-circuit for the empty
or `"all"`-containing selection, else fold the probe loop and return
`(len(errors) == 0, errors)` plus the probed categories. -/
def preflight_config_access (config_types : List String) (check : String → Bool × String) :
    (Bool × List String) × List String :=
  if config_types = [] ∨ "all" ∈ config_types then ((true, []), [])
  else
    let folded := preflight_checks_order.foldl (preflightStep config_types check) ([], [])
    ((decide (folded.1 = []), folded.1), folded.2)

/-- What the checksum walk reads about one path: whether it is a regular
file, its byte content, and the filesystem metadata the walk never touches
(stat timestamps, permission bits). -/
structure FileData where
  is_file : Bool
  content : List Nat
  mtime : Nat
  perms : Nat

/-- `BackupService._calculate_checksum` (backup_service.py lines 176-188),
modelled up to the final SHA-256 digest: the loop walks the directory
listing in sorted order, keeps the regular files and feeds each file's bytes
to `hasher.update` in that order.  The digest is a pure function of the
resulting update sequence, so two runs produce equal checksums exactly when
their update sequences are equal; the model therefore returns that sequence.
`listing` is the path list `rglob` enumerates (in whatever order the OS
yields it); `fs` maps each path to what the walk observes there.  Paths are
modelled as strings ordered lexicographically; the claims proved below hold
for any linear order on paths. -/
def calculate_checksum_stream (listing : List String) (fs : String → FileData) : List (List Nat) :=
  ((listing.mergeSort).filter (fun p => (fs p).is_file)).map (fun p => (fs p).content)

/-! ### Helper lemmas about the bulk loops -/

theorem backupStep_results (w : Nat → BackupEnvWorld) (acc : LoopAcc) (i : Nat) :
    (backupStep w acc i).results = acc.results ++ [(toString i, backupTargetOutcome w i)] := by
  cases h : w i <;> simp [backupStep, backupTargetOutcome, h]

theorem backupStep_sum (w : Nat → BackupEnvWorld) (acc : LoopAcc) (i : Nat) :
    (backupStep w acc i).successful + (backupStep w acc i).failed
      = acc.successful + acc.failed + 1 := by
  cases h : w i <;> simp [backupStep, h] <;> omega

theorem backupStep_failed_le (w : Nat → BackupEnvWorld) (acc : LoopAcc) (i : Nat) :
    acc.failed ≤ (backupStep w acc i).failed := by
  cases h : w i <;> simp [backupStep, h]

theorem backupStep_missing (w : Nat → BackupEnvWorld) (acc : LoopAcc) (i : Nat)
    (h : w i = .missing) :
    backupStep w acc i
      = { acc with results := acc.results ++ [(toString i, .failure "Environment not found")]
                   failed := acc.failed + 1 } := by
  simp [backupStep, h]

theorem backup_foldl_results (w : Nat → BackupEnvWorld) :
    ∀ (l : List Nat) (acc : LoopAcc),
      (l.foldl (backupStep w) acc).results
        = acc.results ++ l.map (fun i => (toString i, backupTargetOutcome w i)) := by
  intro l
  induction l with
  | nil => intro acc; simp
  | cons i t ih =>
      intro acc
      simp only [List.foldl_cons, List.map_cons, ih, backupStep_results, List.append_assoc,
        List.singleton_append]

theorem backup_foldl_sum (w : Nat → BackupEnvWorld) :
    ∀ (l : List Nat) (acc : LoopAcc),
      (l.foldl (backupStep w) acc).successful + (l.foldl (backupStep w) acc).failed
        = acc.successful + acc.failed + l.length := by
  intro l
  induction l with
  | nil => intro acc; simp
  | cons i t ih =>
      intro acc
      simp only [List.foldl_cons, List.length_cons, ih, backupStep_sum]
      omega

theorem backup_foldl_failed_le (w : Nat → BackupEnvWorld) :
    ∀ (l : List Nat) (acc : LoopAcc),
      acc.failed ≤ (l.foldl (backupStep w) acc).failed := by
  intro l
  induction l with
  | nil => intro acc; simp
  | cons i t ih =>
      intro acc
      exact le_trans (backupStep_failed_le w acc i) (ih (backupStep w acc i))

theorem compareStep_sum (w : Nat → CompareEnvWorld) (acc : LoopAcc) (i : Nat) :
    (compareStep w acc i).successful + (compareStep w acc i).failed
      = acc.successful + acc.failed + 1 := by
  cases h : w i <;> simp [compareStep, h] <;> omega

theorem compare_foldl_sum (w : Nat → CompareEnvWorld) :
    ∀ (l : List Nat) (acc : LoopAcc),
      (l.foldl (compareStep w) acc).successful + (l.foldl (compareStep w) acc).failed
        = acc.successful + acc.failed + l.length := by
  intro l
  induction l with
  | nil => intro acc; simp
  | cons i t ih =>
      intro acc
      simp only [List.foldl_cons, List.length_cons, ih, compareStep_sum]
      omega

theorem restorePairStep_sum (w : RestoreWorld) (b : Nat) (acc : LoopAcc) (t : Nat) :
    (restorePairStep w b acc t).successful + (restorePairStep w b acc t).failed
      = acc.successful + acc.failed + (if w.envExists t then 1 else 0) := by
  by_cases h : w.envExists t
  · cases hr : w.pairResult b t <;> simp [restorePairStep, h, hr] <;> omega
  · simp [restorePairStep, h]

theorem restore_inner_foldl_sum (w : RestoreWorld) (b : Nat) :
    ∀ (targets : List Nat) (acc : LoopAcc),
      (targets.foldl (restorePairStep w b) acc).successful
          + (targets.foldl (restorePairStep w b) acc).failed
        = acc.successful + acc.failed + (targets.filter (fun t => w.envExists t)).length := by
  intro targets
  induction targets with
  | nil => intro acc; simp
  | cons t ts ih =>
      intro acc
      by_cases h : w.envExists t
      · simp only [List.foldl_cons, ih, restorePairStep_sum, h, if_true]
        rw [List.filter_cons_of_pos (by simpa using h)]
        simp; omega
      · simp only [List.foldl_cons, ih, restorePairStep_sum, h, if_false]
        rw [List.filter_cons_of_neg (by simpa using h)]
        simp [restorePairStep, h]

theorem restore_outer_foldl_sum (w : RestoreWorld) (targets : List Nat) :
    ∀ (bids : List Nat) (acc : LoopAcc),
      (bids.foldl (restoreBackupStep w targets) acc).successful
          + (bids.foldl (restoreBackupStep w targets) acc).failed
        = acc.successful + acc.failed
          + (bids.filter (fun b => w.backupExists b)).length
              * (targets.filter (fun t => w.envExists t)).length := by
  intro bids
  induction bids with
  | nil => intro acc; simp
  | cons b bs ih =>
      intro acc
      by_cases h : w.backupExists b
      · rw [List.filter_cons_of_pos (by simpa using h)]
        simp only [List.foldl_cons, ih, restoreBackupStep, h, if_true,
          restore_inner_foldl_sum, List.length_cons]
        ring
      · rw [List.filter_cons_of_neg (by simpa using h)]
        simp [List.foldl_cons, restoreBackupStep, ih, h]

theorem status_rule (n : Nat) :
    ((if n = 0 then BackupStatus.success else BackupStatus.partial_) = BackupStatus.success ↔ n = 0)
    ∧ ((if n = 0 then BackupStatus.success else BackupStatus.partial_) = BackupStatus.partial_ ↔ n ≠ 0)
    ∧ (if n = 0 then BackupStatus.success else BackupStatus.partial_) ≠ BackupStatus.failed
    ∧ (if n = 0 then BackupStatus.success else BackupStatus.partial_) ≠ BackupStatus.in_progress := by
  by_cases h : n = 0 <;> simp [h]

/-! ### Claim C1 -/

/-- C1 counterexample.  The claim "partial iff 0 < failed < total" is false:
a one-target backup whose only environment row is missing ends with
`failed_count = 1 = total` and status `PARTIAL` (the code only checks
`failed == 0`, lines 131), so a terminal `PARTIAL` record with
`failed = total` exists.  Moreover for restore the sum rule over
`(artifact, target)` pairs is false: with one missing backup row and one
existing target, the single pair is skipped entirely and
`successful + failed = 0 ≠ 1`. -/
theorem C1_counterexample :
    ((bulk_backup (fun _ => .missing) [1]).status = .partial_
      ∧ ¬ (bulk_backup (fun _ => .missing) [1]).failed_count < [1].length)
    ∧ ((bulk_restore ⟨fun _ => false, fun _ => true, fun _ _ => .ok⟩ [1] [2]).successful_count
          + (bulk_restore ⟨fun _ => false, fun _ => true, fun _ _ => .ok⟩ [1] [2]).failed_count
        ≠ [1].length * [2].length) := by
  decide

/-- C1 (amended): for every bulk operation that completes its per-target
loop, `successful_count + failed_count` equals the number of counted units —
every target for backup and compare, and for restore the (backup, target)
pairs whose backup row and target row both still exist (pairs with a missing
row are silently skipped and counted in neither counter) — `completed_at` is
stamped, and the terminal status obeys: `SUCCESS` iff `failed == 0`,
`PARTIAL` iff `failed > 0` (including when every unit failed), and `FAILED`
arises only from the orchestration-level exception handlers. -/
theorem C1_amended :
    (∀ (w : Nat → BackupEnvWorld) (ids : List Nat),
      (bulk_backup w ids).successful_count + (bulk_backup w ids).failed_count = ids.length
      ∧ (bulk_backup w ids).completed_at_set = true
      ∧ ((bulk_backup w ids).status = .success ↔ (bulk_backup w ids).failed_count = 0)
      ∧ ((bulk_backup w ids).status = .partial_ ↔ (bulk_backup w ids).failed_count ≠ 0)
      ∧ (bulk_backup w ids).status ≠ .failed)
    ∧ (∀ (w : Nat → CompareEnvWorld) (tids : List Nat),
      (bulk_compare w tids).successful_count + (bulk_compare w tids).failed_count = tids.length
      ∧ (bulk_compare w tids).completed_at_set = true
      ∧ ((bulk_compare w tids).status = .success ↔ (bulk_compare w tids).failed_count = 0)
      ∧ ((bulk_compare w tids).status = .partial_ ↔ (bulk_compare w tids).failed_count ≠ 0)
      ∧ (bulk_compare w tids).status ≠ .failed)
    ∧ (∀ (w : RestoreWorld) (bids tids : List Nat),
      (bulk_restore w bids tids).successful_count + (bulk_restore w bids tids).failed_count
        = (bids.filter (fun b => w.backupExists b)).length
            * (tids.filter (fun t => w.envExists t)).length
      ∧ (bulk_restore w bids tids).completed_at_set = true
      ∧ ((bulk_restore w bids tids).status = .success ↔ (bulk_restore w bids tids).failed_count = 0)
      ∧ ((bulk_restore w bids tids).status = .partial_ ↔ (bulk_restore w bids tids).failed_count ≠ 0)
      ∧ (bulk_restore w bids tids).status ≠ .failed)
    ∧ (∀ (rec : OperationRecord) (e : String),
      (bulkBackupFault rec e).status = .failed
      ∧ (bulkRestoreFault rec e).status = .failed
      ∧ (bulkCompareFault rec e).status = .failed) := by
  refine ⟨fun w ids => ?_, fun w tids => ?_, fun w bids tids => ?_, fun rec e => ?_⟩
  · have hsum := backup_foldl_sum w ids ⟨[], 0, 0⟩
    have hst := status_rule (ids.foldl (backupStep w) ⟨[], 0, 0⟩).failed
    simp only [bulk_backup]
    exact ⟨by simpa using hsum, trivial, hst.1, hst.2.1, hst.2.2.1⟩
  · have hsum := compare_foldl_sum w tids ⟨[], 0, 0⟩
    have hst := status_rule (tids.foldl (compareStep w) ⟨[], 0, 0⟩).failed
    simp only [bulk_compare]
    exact ⟨by simpa using hsum, trivial, hst.1, hst.2.1, hst.2.2.1⟩
  · have hsum := restore_outer_foldl_sum w tids bids ⟨[], 0, 0⟩
    have hst := status_rule (bids.foldl (restoreBackupStep w tids) ⟨[], 0, 0⟩).failed
    simp only [bulk_restore]
    exact ⟨by simpa using hsum, trivial, hst.1, hst.2.1, hst.2.2.1⟩
  · exact ⟨rfl, rfl, rfl⟩

/-! ### Claim C2 -/

/-- C2 counterexample.  The claim "for every bulk operation a missing target
records `Failure{Environment not found}` in the results map and increments
the failed counter" is false outside backup: `bulk_compare` increments the
counter but records no results entry at all for the missing target
(lines 304-306), and `bulk_restore` skips the missing target entirely —
neither a results entry nor any counter (lines 193-195). -/
theorem C2_counterexample :
    ((bulk_compare (fun _ => .missing) [7]).results_summary = []
      ∧ (bulk_compare (fun _ => .missing) [7]).failed_count = 1)
    ∧ ((bulk_restore ⟨fun _ => true, fun _ => false, fun _ _ => .ok⟩ [1] [2]).failed_count = 0
      ∧ (bulk_restore ⟨fun _ => true, fun _ => false, fun _ _ => .ok⟩ [1] [2]).results_summary = []) := by
  decide

/-- C2 (amended): a missing environment row never aborts a bulk job, but the
three operations record it differently.  `bulk_backup` records
`Failure{"Environment not found"}` for exactly that target, increments
`failed`, and still processes every other target (the results map has one
entry per target and the counters total all targets).  `bulk_compare` only
increments `failed` — its per-target step leaves the results map untouched —
and its counters still total all targets.  `bulk_restore` skips the pair
entirely: its per-pair step returns the accumulator unchanged. -/
theorem C2_amended (w : Nat → BackupEnvWorld) (pre post : List Nat) (i : Nat)
    (w₂ : Nat → CompareEnvWorld) (acc : LoopAcc) (w₃ : RestoreWorld) (b t : Nat)
    (h : w i = .missing) (h₂ : w₂ i = .missing) (h₃ : w₃.envExists t = false) :
    ((toString i, TargetOutcome.failure "Environment not found")
        ∈ (bulk_backup w (pre ++ i :: post)).results_summary
      ∧ (bulk_backup w (pre ++ i :: post)).results_summary.length = (pre ++ i :: post).length
      ∧ 0 < (bulk_backup w (pre ++ i :: post)).failed_count
      ∧ (bulk_backup w (pre ++ i :: post)).successful_count
          + (bulk_backup w (pre ++ i :: post)).failed_count = (pre ++ i :: post).length)
    ∧ (compareStep w₂ acc i = { acc with failed := acc.failed + 1 }
      ∧ ∀ tids : List Nat,
          (bulk_compare w₂ tids).successful_count + (bulk_compare w₂ tids).failed_count
            = tids.length)
    ∧ restorePairStep w₃ b acc t = acc := by
  refine ⟨⟨?_, ?_, ?_, ?_⟩, ⟨?_, ?_⟩, ?_⟩
  · have hres := backup_foldl_results w (pre ++ i :: post) ⟨[], 0, 0⟩
    simp only [bulk_backup, hres]
    have : backupTargetOutcome w i = .failure "Environment not found" := by
      simp [backupTargetOutcome, h]
    refine List.mem_append_right _ ?_
    rw [← this]
    exact List.mem_map_of_mem _ (by simp)
  · have hres := backup_foldl_results w (pre ++ i :: post) ⟨[], 0, 0⟩
    simp only [bulk_backup, hres]
    simp
  · simp only [bulk_backup]
    rw [List.foldl_append]
    simp only [List.foldl_cons]
    have hstep : (backupStep w (pre.foldl (backupStep w) ⟨[], 0, 0⟩) i).failed
        = (pre.foldl (backupStep w) ⟨[], 0, 0⟩).failed + 1 := by
      rw [backupStep_missing w _ i h]
    have hmono := backup_foldl_failed_le w post (backupStep w (pre.foldl (backupStep w) ⟨[], 0, 0⟩) i)
    omega
  · have hsum := backup_foldl_sum w (pre ++ i :: post) ⟨[], 0, 0⟩
    simp only [bulk_backup]
    simpa using hsum
  · simp [compareStep, h₂]
  · intro tids
    have hsum := compare_foldl_sum w₂ tids ⟨[], 0, 0⟩
    simp only [bulk_compare]
    simpa using hsum
  · simp [restorePairStep, h₃]

/-- C2 witness: the amended theorem applied at a concrete three-target
backup job whose middle environment row is missing, a concrete compare
world, and a concrete restore world. -/
theorem C2_witness :
    ((fun j => if j = 5 then BackupEnvWorld.missing else .exportOk 9 10 2) 5 = .missing)
    ∧ ((toString 5, TargetOutcome.failure "Environment not found")
        ∈ (bulk_backup (fun j => if j = 5 then .missing else .exportOk 9 10 2)
            ([4] ++ 5 :: [6])).results_summary) := by
  refine ⟨by decide, ?_⟩
  exact (C2_amended (fun j => if j = 5 then .missing else .exportOk 9 10 2) [4] [6] 5
    (fun _ => CompareEnvWorld.missing) ⟨[], 0, 0⟩
    ⟨fun _ => true, fun _ => false, fun _ _ => .ok⟩ 1 2
    (by decide) rfl rfl).1.1

/-! ### Claim C3 -/

/-- C3 counterexample.  The claim "on an orchestration-level exception the
record gets status FAILED with error and `completed_at` stamped, for every
bulk operation" is false for compare: the `except Exception` handler of
`bulk_compare` (lines 362-365) sets status and `error_message` but never
stamps `completed_at`, so the completed timestamp of the record stays
unset. -/
theorem C3_counterexample :
    (bulk_compare_full true true (some "boom") (fun _ => .compareOk 0 0 0 0) [1]).map
        OperationRecord.completed_at_set = some false
    ∧ (bulk_compare_full true true (some "boom") (fun _ => .compareOk 0 0 0 0) [1]).map
        OperationRecord.status = some .failed := by
  decide

/-- C3 (amended): an exception escaping the per-target loop marks the
record `FAILED` with the exception text stamped into `error_message` for all
three bulk operations, and `completed_at` is stamped for backup and restore
but NOT for compare (whose handler omits it); in every case — loop completed,
orchestration fault, or missing row — no call ever returns a record left in
`IN_PROGRESS`. -/
theorem C3_amended (w : Nat → BackupEnvWorld) (w₂ : Nat → CompareEnvWorld) (w₃ : RestoreWorld)
    (ids tids bids : List Nat) (e : String) (oe : Option String) (rf sf : Bool) :
    (bulk_backup_full true (some e) w ids
      = some { initialRecord with
          status := .failed
          error_message := some e
          started_at_set := true
          completed_at_set := true })
    ∧ (bulk_restore_full true (some e) w₃ bids tids
      = some { initialRecord with
          status := .failed
          error_message := some e
          started_at_set := true
          completed_at_set := true })
    ∧ (bulk_compare_full true sf (some e) w₂ tids
      = some { initialRecord with
          status := .failed
          error_message := some e })
    ∧ (bulk_backup_full rf oe w ids).map OperationRecord.status ≠ some .in_progress
    ∧ (bulk_restore_full rf oe w₃ bids tids).map OperationRecord.status ≠ some .in_progress
    ∧ (bulk_compare_full rf sf oe w₂ tids).map OperationRecord.status ≠ some .in_progress := by
  refine ⟨rfl, rfl, rfl, ?_, ?_, ?_⟩
  · cases rf
    · simp [bulk_backup_full]
    · cases oe with
      | none =>
          have hst := status_rule (ids.foldl (backupStep w) ⟨[], 0, 0⟩).failed
          simp only [bulk_backup_full, bulk_backup, if_true, Option.map_some]
          simpa using hst.2.2.2
      | some e' => simp [bulk_backup_full, bulkBackupFault]
  · cases rf
    · simp [bulk_restore_full]
    · cases oe with
      | none =>
          have hst := status_rule (bids.foldl (restoreBackupStep w₃ tids) ⟨[], 0, 0⟩).failed
          simp only [bulk_restore_full, bulk_restore, if_true, Option.map_some]
          simpa using hst.2.2.2
      | some e' => simp [bulk_restore_full, bulkRestoreFault]
  · cases rf
    · simp [bulk_compare_full]
    · cases oe with
      | none =>
          cases sf
          · simp [bulk_compare_full]
          · have hst := status_rule (tids.foldl (compareStep w₂) ⟨[], 0, 0⟩).failed
            simp only [bulk_compare_full, bulk_compare, if_true, Option.map_some]
            simpa using hst.2.2.2
      | some e' => simp [bulk_compare_full, bulkCompareFault]

/-! ### Claim C4 -/

/-- C4 counterexample.  The claim "a per-target exception is converted into
a `Failure{str(e)}` entry in the per-target results map, for every bulk
operation" is false for restore: its `except Exception` arm (lines 233-235)
increments `failed` but records nothing in the results map, so a one-pair
restore whose Monaco call raises ends with an EMPTY results map. -/
theorem C4_counterexample :
    (bulk_restore ⟨fun _ => true, fun _ => true, fun _ _ => .raises "boom"⟩ [1] [2]).results_summary
        = []
    ∧ (bulk_restore ⟨fun _ => true, fun _ => true, fun _ _ => .raises "boom"⟩ [1] [2]).failed_count
        = 1 := by
  decide

/-- C4 (amended): an exception raised while processing one unit is caught at
per-unit granularity and never aborts the loop — the counters still total
every unit (all targets for backup and compare) — and for backup and compare
the unit's results entry is `Failure{str(exception)}`; for restore the
exception only increments `failed`, recording no results entry for the
pair. -/
theorem C4_amended (w : Nat → BackupEnvWorld) (w₂ : Nat → CompareEnvWorld) (w₃ : RestoreWorld)
    (acc : LoopAcc) (i b t : Nat) (e₁ e₂ e₃ : String)
    (h : w i = .raises e₁) (h₂ : w₂ i = .raises e₂)
    (ht : w₃.envExists t = true) (h₃ : w₃.pairResult b t = .raises e₃) :
    (backupStep w acc i
      = { acc with results := acc.results ++ [(toString i, .failure e₁)]
                   failed := acc.failed + 1 })
    ∧ (compareStep w₂ acc i
      = { acc with results := acc.results ++ [(toString i, .failure e₂)]
                   failed := acc.failed + 1 })
    ∧ restorePairStep w₃ b acc t = { acc with failed := acc.failed + 1 }
    ∧ (∀ ids : List Nat,
        (bulk_backup w ids).successful_count + (bulk_backup w ids).failed_count = ids.length)
    ∧ (∀ tids : List Nat,
        (bulk_compare w₂ tids).successful_count + (bulk_compare w₂ tids).failed_count
          = tids.length) := by
  refine ⟨?_, ?_, ?_, ?_, ?_⟩
  · simp [backupStep, h]
  · simp [compareStep, h₂]
  · simp [restorePairStep, ht, h₃]
  · intro ids
    have hsum := backup_foldl_sum w ids ⟨[], 0, 0⟩
    simp only [bulk_backup]
    simpa using hsum
  · intro tids
    have hsum := compare_foldl_sum w₂ tids ⟨[], 0, 0⟩
    simp only [bulk_compare]
    simpa using hsum

/-- C4 witness: the amended theorem applied at concrete worlds in which
target 3 raises "socket timeout" for backup and compare, and the pair
(1, 2) raises for restore. -/
theorem C4_witness :
    backupStep (fun _ => .raises "socket timeout") ⟨[], 0, 0⟩ 3
      = { results := [(toString 3, .failure "socket timeout")], successful := 0, failed := 1 } := by
  have happ := C4_amended (fun _ => .raises "socket timeout") (fun _ => .raises "socket timeout")
    ⟨fun _ => true, fun _ => true, fun _ _ => .raises "io error"⟩
    ⟨[], 0, 0⟩ 3 1 2 "socket timeout" "socket timeout" "io error" rfl rfl rfl rfl
  exact happ.1

/-! ### Claim C5 -/

/-- C5: whenever the Monaco invocation inside `export_configs` times out or
exits non-zero, the freshly created destination backup directory is deleted
before returning, the result is `ok=false` carrying the captured diagnostic
output (stderr, falling back to stdout) resp. the timeout message, and no
artifact path is returned. -/
theorem C5_export_failure_cleanup (cfg : List String) (tmo rc : Nat) (out err : String)
    (hrc : rc ≠ 0) :
    ((export_configs (.completes rc out err) cfg tmo).ok = false
      ∧ (export_configs (.completes rc out err) cfg tmo).backup_path_returned = false
      ∧ (export_configs (.completes rc out err) cfg tmo).dir_remains = false
      ∧ (export_configs (.completes rc out err) cfg tmo).message
          = "Export failed: " ++ pyOrStr err out)
    ∧ ((export_configs .timesOut cfg tmo).ok = false
      ∧ (export_configs .timesOut cfg tmo).backup_path_returned = false
      ∧ (export_configs .timesOut cfg tmo).dir_remains = false
      ∧ (export_configs .timesOut cfg tmo).message
          = "Operation timeout after " ++ toString tmo ++ "s") := by
  refine ⟨⟨?_, ?_, ?_, ?_⟩, ⟨rfl, rfl, rfl, rfl⟩⟩ <;> simp [export_configs, hrc]

/-- C5 witness: the theorem applied at a concrete non-zero exit code. -/
theorem C5_witness :
    (2 : Nat) ≠ 0
    ∧ ((export_configs (.completes 2 "" "denied") ["alerting"] 300).ok = false
      ∧ (export_configs (.completes 2 "" "denied") ["alerting"] 300).dir_remains = false) :=
  ⟨by decide,
    ⟨(C5_export_failure_cleanup ["alerting"] 300 2 "" "denied" (by decide)).1.1,
      (C5_export_failure_cleanup ["alerting"] 300 2 "" "denied" (by decide)).1.2.2.1⟩⟩

/-! ### Claim C6 -/

/-- C6: category resolution precedence.  A truthy preset name wins over
everything (in particular `"core"` always resolves to its fixed 6-category
list, whatever explicit list or single category is supplied alongside); an
unregistered preset name raises `ValueError("Unknown config preset: ...")`;
with no truthy preset, a non-empty explicit list wins over a single
category; a single category alone yields a singleton; all inputs absent
yields the empty list. -/
theorem C6_resolve_precedence (cts : Option (List String)) (ct : Option String) :
    (resolve_config_types cts ct (some "core")
      = .ok ["alerting", "dashboards", "slo", "maintenance", "notification", "management_zone"])
    ∧ (∀ p l, pyTruthyStr p = true → List.lookup (p.getD "") CONFIG_PRESETS = some l → l ≠ [] →
        resolve_config_types cts ct p = .ok l)
    ∧ (∀ p, pyTruthyStr p = true → List.lookup (p.getD "") CONFIG_PRESETS = none →
        resolve_config_types cts ct p = .error ("Unknown config preset: " ++ p.getD ""))
    ∧ (∀ l, l ≠ [] → resolve_config_types (some l) ct none = .ok l)
    ∧ (∀ c, c ≠ "" → resolve_config_types none (some c) none = .ok [c])
    ∧ resolve_config_types none none none = .ok [] := by
  refine ⟨rfl, ?_, ?_, ?_, ?_, rfl⟩
  · intro p l hp hl hne
    simp [resolve_config_types, hp, hl, hne]
  · intro p hp hl
    simp [resolve_config_types, hp, hl]
  · intro l hne
    have : pyTruthyList (some l) = true := by simpa [pyTruthyList] using hne
    simp [resolve_config_types, pyTruthyStr, this]
  · intro c hne
    simp [resolve_config_types, pyTruthyStr, pyTruthyList, hne]

/-- C6 witness: the theorem applied at concrete inputs — `"core"` overrides a
simultaneously supplied single category, and an unregistered preset errors. -/
theorem C6_witness :
    (resolve_config_types (some ["dashboards"]) (some "slo") (some "core")
      = .ok ["alerting", "dashboards", "slo", "maintenance", "notification", "management_zone"])
    ∧ (resolve_config_types (some ["dashboards"]) (some "slo") (some "nope")
      = .error ("Unknown config preset: " ++ (some "nope").getD ""))
    ∧ resolve_config_types none (some "slo") none = .ok ["slo"] :=
  ⟨(C6_resolve_precedence (some ["dashboards"]) (some "slo")).1,
    (C6_resolve_precedence (some ["dashboards"]) (some "slo")).2.2.1 (some "nope")
      (by decide) (by decide),
    (C6_resolve_precedence none none).2.2.2.2.1 "slo" (by decide)⟩

/-! ### Claim C9 -/

/-- C9: the restore manifest references the credential only through an
environment-variable indirection whose name is the freshly generated
`DTBM_TOKEN_<uuid4 hex>`: the manifest (and hence its serialized body) is
the same function for every value of the API token — it is built with the
token equal to any other value, including the empty string — so the
plaintext token never appears in the document; the single target
environment's auth section is exactly the `environment`-typed reference to
that variable. -/
theorem C9_manifest_token_indirection (pe : Bool) (url t₁ t₂ u : String) :
    build_restore_manifest pe url t₁ u = build_restore_manifest pe url t₂ u
    ∧ ((build_restore_manifest pe url t₁ u).environments.map
          (fun env => (env.auth_token_type, env.auth_token_name)))
        = [("environment", "DTBM_TOKEN_" ++ u)]
    ∧ manifest_text (build_restore_manifest pe url t₁ u)
        = manifest_text (build_restore_manifest pe url "" u) :=
  ⟨rfl, rfl, rfl⟩

/-! ### Helper lemmas about sorting, the catalog and the preflight loop -/

theorem mem_py_sorted_set (l : List String) (x : String) :
    x ∈ py_sorted_set l ↔ x ∈ l := by
  unfold py_sorted_set
  rw [(List.mergeSort_perm l.dedup _).mem_iff]
  exact List.mem_dedup

theorem py_sorted_set_nodup (l : List String) : (py_sorted_set l).Nodup :=
  ((List.mergeSort_perm l.dedup _).nodup_iff).2 (List.nodup_dedup l)

theorem py_sorted_set_sorted (l : List String) : (py_sorted_set l).Sorted (· ≤ ·) :=
  List.sorted_mergeSort' _

theorem py_sorted_set_congr (a b : List String) (h : ∀ x, x ∈ a ↔ x ∈ b) :
    py_sorted_set a = py_sorted_set b :=
  List.eq_of_perm_of_sorted
    ((List.perm_ext_iff_of_nodup (py_sorted_set_nodup a) (py_sorted_set_nodup b)).2
      (fun x => by rw [mem_py_sorted_set, mem_py_sorted_set]; exact h x))
    (py_sorted_set_sorted a) (py_sorted_set_sorted b)

theorem collect_monaco_apis_eq_none (l : List String) :
    collect_monaco_apis l = none ↔ ∃ ct ∈ l, List.lookup ct CONFIG_TYPES = none := by
  induction l with
  | nil => simp [collect_monaco_apis]
  | cons c cs ih =>
      cases hl : List.lookup c CONFIG_TYPES with
      | none =>
          constructor
          · intro _
            exact ⟨c, by simp, hl⟩
          · intro _
            simp [collect_monaco_apis, hl]
      | some d =>
          have hstep : collect_monaco_apis (c :: cs) = none ↔ collect_monaco_apis cs = none := by
            cases hc : collect_monaco_apis cs <;> simp [collect_monaco_apis, hl, hc]
          rw [hstep, ih]
          constructor
          · rintro ⟨ct, hct, hmiss⟩
            exact ⟨ct, by simp [hct], hmiss⟩
          · rintro ⟨ct, hct, hmiss⟩
            rcases List.mem_cons.1 hct with hceq | hcs
            · subst hceq
              rw [hl] at hmiss
              exact absurd hmiss (by simp)
            · exact ⟨ct, hcs, hmiss⟩

theorem collect_monaco_apis_mem (l : List String) :
    ∀ (apis : List String), collect_monaco_apis l = some apis →
      ∀ x, x ∈ apis
        ↔ ∃ ct ∈ l, ∃ d, List.lookup ct CONFIG_TYPES = some d ∧ x ∈ d.monaco_apis := by
  induction l with
  | nil =>
      intro apis h x
      simp only [collect_monaco_apis, Option.some_inj] at h
      subst h
      simp
  | cons c cs ih =>
      intro apis h x
      cases hl : List.lookup c CONFIG_TYPES with
      | none => rw [collect_monaco_apis, hl] at h; exact absurd h (by simp)
      | some d =>
          cases hc : collect_monaco_apis cs with
          | none => rw [collect_monaco_apis, hl, hc] at h; exact absurd h (by simp)
          | some rest =>
              rw [collect_monaco_apis, hl, hc, Option.some_inj] at h
              subst h
              rw [List.mem_append, ih rest hc x]
              constructor
              · rintro (hd | ⟨ct, hct, d', hd', hx⟩)
                · exact ⟨c, by simp, d, hl, hd⟩
                · exact ⟨ct, by simp [hct], d', hd', hx⟩
              · rintro ⟨ct, hct, d', hd', hx⟩
                rcases List.mem_cons.1 hct with hceq | hcs
                · subst hceq; rw [hl, Option.some_inj] at hd'; subst hd'; exact Or.inl hx
                · exact Or.inr ⟨ct, hcs, d', hd', hx⟩

theorem preflight_foldl (cfg : List String) (check : String → Bool × String) :
    ∀ (order : List String) (acc : List String × List String),
      order.foldl (preflightStep cfg check) acc
        = (acc.1 ++ (order.filter (fun c => decide (c ∈ cfg))).filterMap
              (fun c => if (check c).1 = true then none else some (c ++ ": " ++ (check c).2)),
           acc.2 ++ order.filter (fun c => decide (c ∈ cfg))) := by
  intro order
  induction order with
  | nil => intro acc; simp
  | cons c cs ih =>
      intro acc
      by_cases hc : c ∈ cfg
      · rcases hcheck : check c with ⟨ok, msg⟩
        cases ok
        · simp [List.foldl_cons, preflightStep, hc, hcheck, ih, List.filter_cons,
            List.filterMap_cons]
        · simp [List.foldl_cons, preflightStep, hc, hcheck, ih, List.filter_cons,
            List.filterMap_cons]
      · simp [List.foldl_cons, preflightStep, hc, ih, List.filter_cons]

theorem export_configs_cmd_api_filters (w : MonacoRunWorld) (cfg : List String) (tmo : Nat) :
    (export_configs w cfg tmo).cmd_api_filters
      = match build_monaco_api_filters (normalize_export_types cfg) with
        | none => none
        | some [] => none
        | some apis => some apis := by
  cases w with
  | completes rc out err => by_cases h : rc = 0 <;> simp [export_configs, h]
  | timesOut => simp [export_configs]
  | raises e => simp [export_configs]

/-! ### Claim C7 -/

/-- C7: the checksum is a deterministic content fingerprint.  Whatever order
the directory walk enumerates paths in (any permutation of the same path
set), and whatever the filesystem metadata (two views agreeing on which
paths are regular files and on their byte contents, but free to differ in
timestamps and permission bits), the sequence of bytes fed to the SHA-256
hasher — and hence the checksum — is identical.  In particular computing the
checksum twice over the same unchanged directory yields the same value. -/
theorem C7_checksum_content_fingerprint (listing₁ listing₂ : List String)
    (fs₁ fs₂ : String → FileData)
    (hperm : listing₁.Perm listing₂)
    (hfile : ∀ p, (fs₁ p).is_file = (fs₂ p).is_file)
    (hcontent : ∀ p, (fs₁ p).content = (fs₂ p).content) :
    calculate_checksum_stream listing₁ fs₁ = calculate_checksum_stream listing₂ fs₂ := by
  have hsort : listing₁.mergeSort = listing₂.mergeSort :=
    List.eq_of_perm_of_sorted
      ((List.mergeSort_perm listing₁ _).trans (hperm.trans (List.mergeSort_perm listing₂ _).symm))
      (List.sorted_mergeSort' listing₁) (List.sorted_mergeSort' listing₂)
  have hf : (fun p => (fs₁ p).is_file) = fun p => (fs₂ p).is_file := funext hfile
  unfold calculate_checksum_stream
  rw [hsort, hf]
  exact List.map_congr_left (fun p _ => hcontent p)

/-- C7 witness: the theorem applied to a two-file artifact directory
enumerated in two different orders, with the second view carrying different
timestamps and permissions. -/
theorem C7_witness :
    List.Perm ["logs/b.json", "a.json"] ["a.json", "logs/b.json"]
    ∧ calculate_checksum_stream ["logs/b.json", "a.json"]
          (fun _ => { is_file := true, content := [1, 2], mtime := 100, perms := 420 })
        = calculate_checksum_stream ["a.json", "logs/b.json"]
          (fun _ => { is_file := true, content := [1, 2], mtime := 999, perms := 511 }) :=
  ⟨by decide,
    C7_checksum_content_fingerprint _ _ _ _ (by decide) (fun _ => rfl) (fun _ => rfl)⟩

/-! ### Claim C8 -/

/-- C8: the capability preflight.  A category set containing the `"all"`
sentinel short-circuits to success with no remote call (no category is
probed).  Otherwise exactly the requested categories with a registered probe
are called, the error list carries one category-scoped message per probed
category whose read check failed (categories without a registered probe are
skipped, never counted as failures), and `ok` is true exactly when no probed
category failed. -/
theorem C8_preflight_access (cfg : List String) (check : String → Bool × String) :
    ("all" ∈ cfg → preflight_config_access cfg check = ((true, []), []))
    ∧ ("all" ∉ cfg →
        (preflight_config_access cfg check).2
            = preflight_checks_order.filter (fun c => decide (c ∈ cfg))
        ∧ (preflight_config_access cfg check).1.2
            = (preflight_checks_order.filter (fun c => decide (c ∈ cfg))).filterMap
                (fun c => if (check c).1 = true then none else some (c ++ ": " ++ (check c).2))
        ∧ ((preflight_config_access cfg check).1.1 = true
            ↔ (preflight_config_access cfg check).1.2 = [])) := by
  constructor
  · intro hall
    simp [preflight_config_access, hall]
  · intro hall
    by_cases hemp : cfg = []
    · subst hemp
      simp [preflight_config_access, preflight_checks_order]
    · have hcond : ¬ (cfg = [] ∨ "all" ∈ cfg) := by
        rintro (h | h)
        · exact hemp h
        · exact hall h
      refine ⟨?_, ?_, ?_⟩
      · simp only [preflight_config_access, hcond, if_false, preflight_foldl,
          List.nil_append]
      · simp only [preflight_config_access, hcond, if_false, preflight_foldl,
          List.nil_append]
      · simp only [preflight_config_access, hcond, if_false, preflight_foldl,
          List.nil_append]
        rw [decide_eq_true_iff]

/-- C8 witness: the theorem applied at a concrete request of three
categories — one probeable and passing, one probeable and failing, one with
no registered probe — plus the sentinel case. -/
theorem C8_witness :
    "all" ∉ ["alerting", "dashboards", "extensions"]
    ∧ (preflight_config_access ["alerting", "dashboards", "extensions"]
          (fun c => if c = "dashboards" then (false, "403 Forbidden") else (true, "Success"))).1.2
        = (preflight_checks_order.filter
              (fun c => decide (c ∈ ["alerting", "dashboards", "extensions"]))).filterMap
            (fun c =>
              if ((fun c => if c = "dashboards" then (false, "403 Forbidden")
                    else (true, "Success")) c).1 = true
              then none
              else some (c ++ ": "
                ++ ((fun c => if c = "dashboards" then (false, "403 Forbidden")
                      else (true, "Success")) c).2))
    ∧ preflight_config_access ["all"]
          (fun _ => (true, "Success")) = ((true, []), []) :=
  ⟨by decide,
    ((C8_preflight_access ["alerting", "dashboards", "extensions"] _).2 (by decide)).2.1,
    (C8_preflight_access ["all"] _).1 (by decide)⟩

/-! ### Claim C10 -/

/-- C10: at the export-runner level an empty category selection is
normalized to the `"all"` sentinel; the filter builder maps the empty list
and every `"all"`-containing list to the empty "no filter" marker, so an
empty selection reaching the runner yields an unrestricted export — no
`--api` flag — rather than an error; and for resolvable non-all selections
the produced filter list is `sorted(set(...))`: sorted, duplicate-free, and
a function only of the selection's membership (independent of input order
and multiplicity). -/
theorem C10_filter_normalization :
    normalize_export_types [] = ["all"]
    ∧ (∀ cfg : List String, cfg = [] ∨ "all" ∈ cfg → build_monaco_api_filters cfg = some [])
    ∧ (∀ (w : MonacoRunWorld) (tmo : Nat), (export_configs w [] tmo).cmd_api_filters = none)
    ∧ (∀ l₁ l₂ : List String, "all" ∉ l₁ → (∀ x, x ∈ l₁ ↔ x ∈ l₂) →
        build_monaco_api_filters l₁ = build_monaco_api_filters l₂)
    ∧ (∀ (l apis : List String), build_monaco_api_filters l = some apis →
        apis.Sorted (· ≤ ·) ∧ apis.Nodup) := by
  refine ⟨by decide, ?_, ?_, ?_, ?_⟩
  · intro cfg h
    simp [build_monaco_api_filters, h]
  · intro w tmo
    rw [export_configs_cmd_api_filters]
    have h1 : normalize_export_types [] = ["all"] := by decide
    have h2 : build_monaco_api_filters ["all"] = some [] := by
      simp [build_monaco_api_filters]
    rw [h1, h2]
  · intro l₁ l₂ hall hmem
    have hall₂ : "all" ∉ l₂ := fun h => hall ((hmem "all").2 h)
    by_cases h₁ : l₁ = []
    · have h₂ : l₂ = [] := by
        rw [List.eq_nil_iff_forall_not_mem]
        intro x hx
        have := (hmem x).2 hx
        simp [h₁] at this
      subst h₁; subst h₂; rfl
    · have h₂ : l₂ ≠ [] := by
        intro h
        apply h₁
        rw [List.eq_nil_iff_forall_not_mem]
        intro x hx
        have := (hmem x).1 hx
        simp [h] at this
      simp only [build_monaco_api_filters]
      rw [if_neg (by rintro (h | h); exacts [h₁ h, hall h]),
        if_neg (by rintro (h | h); exacts [h₂ h, hall₂ h])]
      cases hc₁ : collect_monaco_apis l₁ with
      | none =>
          have hc₂ : collect_monaco_apis l₂ = none := by
            rw [collect_monaco_apis_eq_none] at hc₁ ⊢
            obtain ⟨ct, hct, hmiss⟩ := hc₁
            exact ⟨ct, (hmem ct).1 hct, hmiss⟩
          rw [hc₂]
      | some a₁ =>
          cases hc₂ : collect_monaco_apis l₂ with
          | none =>
              exfalso
              rw [collect_monaco_apis_eq_none] at hc₂
              obtain ⟨ct, hct, hmiss⟩ := hc₂
              have : collect_monaco_apis l₁ = none :=
                (collect_monaco_apis_eq_none l₁).2 ⟨ct, (hmem ct).2 hct, hmiss⟩
              rw [hc₁] at this
              exact absurd this (by simp)
          | some a₂ =>
              have : py_sorted_set a₁ = py_sorted_set a₂ := by
                apply py_sorted_set_congr
                intro x
                rw [collect_monaco_apis_mem l₁ a₁ hc₁ x, collect_monaco_apis_mem l₂ a₂ hc₂ x]
                constructor
                · rintro ⟨ct, hct, d, hd, hx⟩
                  exact ⟨ct, (hmem ct).1 hct, d, hd, hx⟩
                · rintro ⟨ct, hct, d, hd, hx⟩
                  exact ⟨ct, (hmem ct).2 hct, d, hd, hx⟩
              simp [this]
  · intro l apis h
    simp only [build_monaco_api_filters] at h
    split at h
    · rw [Option.some_inj] at h
      subst h
      exact ⟨List.sorted_nil, List.nodup_nil⟩
    · cases hc : collect_monaco_apis l with
      | none => rw [hc] at h; exact absurd h (by simp)
      | some a =>
          rw [hc, Option.some_inj] at h
          subst h
          exact ⟨py_sorted_set_sorted a, py_sorted_set_nodup a⟩

/-- C10 witness: the theorem applied at a concrete duplicated, unordered
selection and its deduplicated reordering, plus the empty-selection runner
path. -/
theorem C10_witness :
    "all" ∉ ["slo", "alerting", "slo"]
    ∧ build_monaco_api_filters ["slo", "alerting", "slo"]
        = build_monaco_api_filters ["alerting", "slo"]
    ∧ (export_configs (.completes 0 "" "") [] 300).cmd_api_filters = none :=
  ⟨by decide,
    C10_filter_normalization.2.2.2.1 ["slo", "alerting", "slo"] ["alerting", "slo"]
      (by decide) (fun x => by constructor <;> (intro h; simp at h; simp [h]) <;> tauto),
    C10_filter_normalization.2.2.1 (.completes 0 "" "") 300⟩

end DTBR
